import Mathlib

/-!
Shallow embedding of the flight-scheduling UI script (static/script.js, full
version): the result-interpretation and rendering pipeline.  Dates are epoch
milliseconds (`Int`, the value of `new Date(s).getTime()`), money and
durations are exact rationals (`Rat`), DOM panes and the Leaflet route layer
are explicit data, and the event-driven handlers are a step function on an
explicit view-state record.
-/

namespace FlightUI

/-- One flown flight segment, as delivered in a route-search response. -/
structure Leg where
  flight_number : String
  airline : String
  aircraft : String
  destination : String
  /-- epoch milliseconds of `leg.departure_utc` -/
  departure_utc : Int
  /-- epoch milliseconds of `leg.arrival_utc` -/
  arrival_utc : Int
  cost : Rat
  deriving DecidableEq

/-- One criterion's outcome in the route-search response.  `path` is `none`
when the JSON object carries no `path` field (the `not_found` case). -/
structure RouteResult where
  status : String
  path : Option (List Leg) := none
  deriving DecidableEq

/-- `toFixed(2)`: the displayed 2-decimal rounding of a currency amount. -/
def toFixed2 (q : Rat) : Rat := ((round (q * 100) : Int) : Rat) / 100

/-- Milliseconds per hour; the script divides date differences by 1000*60*60. -/
def msPerHour : Rat := 3600000

/-- The rendered entry for one leg inside a found route's pane: either the
invalid-times error block (negative leg duration) or the full leg block. -/
inductive LegRender where
  | invalidLeg (airline flight_number : String)
  | validLeg (airline flight_number origin destination : String)
      (cost : Rat) (depMs arrMs : Int)
  deriving DecidableEq

/-- The origin string a rendered leg displays, when it displays one. -/
def LegRender.origin? : LegRender → Option String
  | .invalidLeg _ _ => none
  | .validLeg _ _ o _ _ _ _ => some o

/-- `const origin = index === 0 ? startNode : result.path[index - 1].destination`
(the script only evaluates this with `i` in bounds, so the default is dead). -/
def legOrigin (startNode : String) (path : List Leg) (i : Nat) : String :=
  if i = 0 then startNode
  else ((path.get? (i - 1)).map Leg.destination).getD ""

/-- Render one leg of a found route (body of the `result.path.forEach`).
The script computes the leg duration in hours as `(arr - dep) / 3600000`;
its sign equals the sign of the millisecond difference used here. -/
def renderLeg (startNode : String) (path : List Leg) (i : Nat) (leg : Leg) :
    LegRender :=
  if leg.arrival_utc - leg.departure_utc < 0 then
    .invalidLeg leg.airline leg.flight_number
  else
    .validLeg leg.airline leg.flight_number (legOrigin startNode path i)
      leg.destination leg.cost leg.departure_utc leg.arrival_utc

/-- All leg entries of a found route, in path order. -/
def renderLegEntries (startNode : String) (path : List Leg) : List LegRender :=
  path.enum.map (fun q => renderLeg startNode path q.1 q.2)

/-- The content rendered into one criterion's pane. -/
inductive PaneContent where
  /-- route-level data-error notice (negative total duration); nothing else -/
  | dataError
  /-- aggregate line (cost already `toFixed(2)`-rounded, duration in hours,
  stop count) followed by the per-leg entries -/
  | foundRoute (costFixed2 : Rat) (totalDurationHours : Rat) (stops : Nat)
      (legs : List LegRender)
  /-- the neutral no-route notice -/
  | noRoute
  deriving DecidableEq

/-- The pane produced for one criterion by `displayAllResults`.  `none` models
the TypeError the script would throw when a `found` result has no or an empty
`path` (reading `.reduce`/`.arrival_utc` of `undefined`). -/
def displayPane (startNode : String) (result : RouteResult) :
    Option PaneContent :=
  if result.status = "found" then
    match result.path with
    | none => none
    | some [] => none
    | some (firstLeg :: rest) =>
      let path := firstLeg :: rest
      let totalCost : Rat := path.foldl (fun acc leg => acc + leg.cost) 0
      let lastLeg := rest.getLastD firstLeg
      let totalDuration : Rat :=
        ((lastLeg.arrival_utc - firstLeg.departure_utc : Int) : Rat) / msPerHour
      if totalDuration < 0 then some .dataError
      else
        some (.foundRoute (toFixed2 totalCost) totalDuration (path.length - 1)
          (renderLegEntries startNode path))
  else
    some .noRoute

/-- `displayAllResults` over the entries of the result set (pane contents
only; the final `.click()` on the cheapest tab is part of the step machine). -/
def displayAllResults (startNode : String)
    (results : List (String × RouteResult)) :
    List (String × Option PaneContent) :=
  results.map (fun e => (e.1, displayPane startNode e.2))

/-- A map coordinate pair (Leaflet `[lat, lng]`). -/
abbrev Point := Rat × Rat

/-- Marker classification in the popup: first point, last point, other. -/
inductive MarkerClass where
  | origin
  | destination
  | layover
  deriving DecidableEq

/-- A marker drawn on the route layer (popup airport-name resolution via
`airportNames` is display-only and not modelled). -/
structure Marker where
  pos : Point
  cls : MarkerClass
  airportCode : String
  deriving DecidableEq

/-- The contents of the Leaflet route layer group. -/
structure RouteLayer where
  markers : List Marker
  polylinePoints : List Point
  deriving DecidableEq

/-- The cleared layer (`routeLayer.clearLayers()`). -/
def RouteLayer.empty : RouteLayer := ⟨[], []⟩

/-- `[airportCoordinates[startNode], ...path.map(leg => airportCoordinates[leg.destination])]`,
a list of possibly-missing coordinates. -/
def routePoints (coords : String → Option Point) (startNode : String)
    (path : List Leg) : List (Option Point) :=
  coords startNode :: path.map (fun leg => coords leg.destination)

/-- The marker built for index `i` of the point list (class by position in the
unfiltered list, airport code by start/previous-destination rule). -/
def markerAt (startNode : String) (path : List Leg) (numPoints : Nat)
    (i : Nat) (p : Point) : Marker :=
  { pos := p
  , cls := if i = 0 then .origin
           else if i = numPoints - 1 then .destination
           else .layover
  , airportCode := if i = 0 then startNode
                   else ((path.get? (i - 1)).map Leg.destination).getD "" }

/-- `drawMapRoute(path, startNode)` as a function to the resulting route-layer
contents.  The script first clears the layer; then
`if (!path || !airportCoordinates[startNode]) return;` leaves it empty;
otherwise each point with present coordinates gets a marker
(`if(!p) return;` skips missing ones) and the polyline is built from
`points.filter(p => p)`.  (`map.fitBounds` only moves the viewport.) -/
def drawMapRoute (coords : String → Option Point)
    (path? : Option (List Leg)) (startNode : String) : RouteLayer :=
  match path? with
  | none => RouteLayer.empty
  | some path =>
    match coords startNode with
    | none => RouteLayer.empty
    | some _ =>
      let points := routePoints coords startNode path
      { markers := points.enum.filterMap
          (fun q => q.2.map (markerAt startNode path points.length q.1))
      , polylinePoints := points.filterMap id }

/-- `drawMapRoute` acting on the previous layer contents: the first statement
`routeLayer.clearLayers()` discards `prev`, so the result is whatever a fresh
draw produces. -/
def drawMapRouteOn (coords : String → Option Point)
    (path? : Option (List Leg)) (startNode : String) (_prev : RouteLayer) :
    RouteLayer :=
  drawMapRoute coords path? startNode

/-- The `/api/collision-report` payload fields `displayCollisionData` reads
beyond the static summary markup. -/
structure ConflictReportData where
  total_flights : Nat
  successful : Nat
  failed : Nat
  failed_flights : List String
  conflicts : List String
  deriving DecidableEq

/-- The list-shaped parts of the conflict-report panel rendering. -/
structure CollisionView where
  /-- badge per entry of `failed_flights.slice(0, 20)` -/
  badges : List String
  /-- `+N more` indicator, present iff more than 20 failed flights -/
  moreIndicator : Option Nat
  /-- `conflicts.slice(0, 10)` items -/
  conflictItems : List String
  /-- the `(N total)` count in the heading -/
  failedTotal : Nat
  deriving DecidableEq

/-- `displayCollisionData`, restricted to its data-dependent list rendering. -/
def displayCollisionData (d : ConflictReportData) : CollisionView :=
  { badges := d.failed_flights.take 20
  , moreIndicator :=
      if d.failed_flights.length > 20 then some (d.failed_flights.length - 20)
      else none
  , conflictItems := d.conflicts.take 10
  , failedTotal := d.failed_flights.length }

/-- `/api/validate-path` response. -/
structure ConflictValidation where
  conflicts_detected : Bool
  /-- `(flight, reason)` pairs -/
  conflicted_flights : List (String × String)
  deriving DecidableEq

/-- One collision-warning banner inside `#results-tabs` (its badge flights). -/
structure Warning where
  flights : List String
  deriving DecidableEq

/-- `showCollisionWarning`: `insertBefore(warning, resultsPanel.firstChild)`
prepends a banner built from the conflicted flights. -/
def showCollisionWarning (conflicts : List (String × String))
    (warnings : List Warning) : List Warning :=
  ⟨conflicts.map Prod.fst⟩ :: warnings

/-- User-visible `alert(...)` messages. -/
inductive AlertMsg where
  /-- `No routes found between start and end ... Try adjusting your
  preferences or selecting different airports.` -/
  | noRoutesGuidance (start endCode : String)
  /-- `Error: Could not fetch flight data.` -/
  | fetchError
  deriving DecidableEq

/-- Static environment: the coordinate lookup table and the (uppercased)
start/end form inputs, constant across the events we consider. -/
structure Env where
  coords : String → Option Point
  startInput : String
  endInput : String

/-- The view state mutated by the handlers. -/
structure UIState where
  /-- number of searches submitted so far (the spec's ViewState generation) -/
  generation : Nat
  loading : Bool
  resultsTabsHidden : Bool
  collisionPanelHidden : Bool
  routeLayer : RouteLayer
  /-- collision-warning banners inside `#results-tabs`, newest first -/
  warnings : List Warning
  panes : List (String × Option PaneContent)
  currentResults : List (String × RouteResult)
  activeTab : Option String
  alerts : List AlertMsg
  deriving DecidableEq

/-- The state on page load: panels hidden, nothing rendered. -/
def initState : UIState :=
  { generation := 0
  , loading := false
  , resultsTabsHidden := true
  , collisionPanelHidden := true
  , routeLayer := RouteLayer.empty
  , warnings := []
  , panes := []
  , currentResults := []
  , activeTab := none
  , alerts := [] }

/-- `currentResults[tabId]`: property lookup in the result-set object. -/
def lookupResult (results : List (String × RouteResult)) (key : String) :
    Option RouteResult :=
  (results.find? (fun e => e.1 = key)).map Prod.snd

/-- The tab-click handler: set the active tab and
`drawMapRoute(currentResults[tabId]?.path, startNode)`. -/
def clickTab (env : Env) (s : UIState) (tab : String) : UIState :=
  { s with activeTab := some tab
         , routeLayer := drawMapRoute env.coords
             ((lookupResult s.currentResults tab).bind RouteResult.path)
             env.startInput }

/-- `Object.values(results).some(result => result.status === 'found')`. -/
def hasAnyRoute (results : List (String × RouteResult)) : Bool :=
  results.any (fun e => e.2.status = "found")

/-- The discrete events driving the handlers.  `validationResponse` carries
the generation of the search whose handler issued the `/api/validate-path`
request, so staleness is expressible; the script itself stores no such tag. -/
inductive Event where
  /-- synchronous prefix of the submit handler, before `await fetch` -/
  | submit
  /-- the `/api/find-routes` response body arrives (2xx) -/
  | searchResponse (results : List (String × RouteResult))
  /-- a `/api/validate-path` response arrives, issued by search `gen` -/
  | validationResponse (gen : Nat) (v : ConflictValidation)
  /-- the user clicks a criterion tab -/
  | clickTabEvent (tab : String)

/-- One handler invocation.  `submit`: show spinner, hide both panels, clear
the route layer (warnings, panes and `currentResults` are left untouched).
`searchResponse`: assign `currentResults`; with no found route, alert and
return; otherwise render all panes, click the cheapest tab, unhide the
results panel.  `validationResponse`: the script consults no generation
token — a detected-conflicts response always prepends a banner. -/
def step (env : Env) (s : UIState) : Event → UIState
  | .submit =>
    { s with generation := s.generation + 1
           , loading := true
           , resultsTabsHidden := true
           , collisionPanelHidden := true
           , routeLayer := RouteLayer.empty }
  | .searchResponse results =>
    let s1 := { s with currentResults := results }
    if hasAnyRoute results then
      let s2 := { s1 with panes := displayAllResults env.startInput results }
      let s3 := clickTab env s2 "cheapest"
      { s3 with resultsTabsHidden := false, loading := false }
    else
      { s1 with
          alerts :=
            AlertMsg.noRoutesGuidance env.startInput env.endInput :: s1.alerts
        , loading := false }
  | .validationResponse _gen v =>
    if v.conflicts_detected then
      { s with warnings := showCollisionWarning v.conflicted_flights s.warnings }
    else s
  | .clickTabEvent tab => clickTab env s tab

/-- Run a sequence of events from a state. -/
def runTrace (env : Env) (s : UIState) (events : List Event) : UIState :=
  events.foldl (step env) s

/-- A full search cycle: the submit prefix, then its search response. -/
def stepSearchCycle (env : Env) (s : UIState)
    (results : List (String × RouteResult)) : UIState :=
  step env (step env s .submit) (.searchResponse results)

/-- Modelled from the spec: the default active criterion is `cheapest`, or,
when that key is absent from the result set, the first key present in the
fixed priority order (cheapest, fastest, best).  Stated only for comparison
with the script's actual default-tab behaviour. -/
def specClaimDefaultTab (results : List (String × RouteResult)) :
    Option String :=
  (["cheapest", "fastest", "best"].filter
    (fun k => (lookupResult results k).isSome)).head?

/-! ### Concrete fixtures used by witnesses and counterexamples -/

/-- Build a leg with a fixed aircraft type. -/
def mkLeg (fn al dest : String) (dep arr : Int) (c : Rat) : Leg :=
  { flight_number := fn
  , airline := al
  , aircraft := "A320"
  , destination := dest
  , departure_utc := dep
  , arrival_utc := arr
  , cost := c }

/-- Environment whose coordinate table is empty. -/
def envNone : Env :=
  { coords := fun _ => none, startInput := "AAA", endInput := "BBB" }

/-- A view state in the middle of its third search cycle (generation 2). -/
def stateGen2 : UIState := { initState with generation := 2 }

/-- A conflict-validation response reporting one conflicted flight. -/
def staleV : ConflictValidation :=
  { conflicts_detected := true, conflicted_flights := [("AA100", "gate")] }

/-- The spec's own example: one leg arriving the day before it departs
(departure 2024-01-02T10:00Z, arrival 2024-01-01T08:00Z, cost 200). -/
def legC2 : Leg := mkLeg "XX1" "XX" "LAX" 1704189600000 1704096000000 200

/-- A found route consisting of that single inverted leg. -/
def routeC2 : RouteResult := { status := "found", path := some [legC2] }

/-- A result set in which no criterion found a route. -/
def resultsC3 : List (String × RouteResult) :=
  [ ("cheapest", { status := "not_found" })
  , ("fastest", { status := "not_found" })
  , ("best", { status := "not_found" }) ]

/-- Valid first leg to BBB. -/
def legA4 : Leg := mkLeg "F1" "AA" "BBB" 0 100 50

/-- Invalid middle leg (arrival 150 before departure 200) to CCC. -/
def legB4 : Leg := mkLeg "F2" "AA" "CCC" 200 150 60

/-- Valid last leg to DDD. -/
def legC4 : Leg := mkLeg "F3" "AA" "DDD" 300 400 70

/-- A path whose middle leg is flagged invalid. -/
def pathC4 : List Leg := [legA4, legB4, legC4]

/-- The rendered entry expected at index 2 of `pathC4`: its origin is the
invalid middle leg's destination, taken from the unfiltered sequence. -/
def rC4 : LegRender := LegRender.validLeg "AA" "F3" "CCC" "DDD" 70 300 400

/-- Valid leg, cost 100. -/
def legV5 : Leg := mkLeg "G1" "AA" "BBB" 0 10 100

/-- Invalid leg (arrival 50 before departure 100), cost 55. -/
def legI5 : Leg := mkLeg "G2" "AA" "CCC" 100 50 55

/-- Found route mixing a valid and an invalid leg; its total duration
(50 − 0 ms) is non-negative, so the aggregate line is rendered. -/
def routeC5 : RouteResult := { status := "found", path := some [legV5, legI5] }

/-- The aggregate cost displayed for `routeC5`: 100 + 55. -/
def cW5 : Rat := 155

/-- The total duration in hours displayed for `routeC5`. -/
def dW5 : Rat := 50 / 3600000

/-- The leg entries rendered for `routeC5`. -/
def legsW5 : List LegRender :=
  [ LegRender.validLeg "AA" "G1" "AAA" "BBB" 100 0 10
  , LegRender.invalidLeg "AA" "G2" ]

/-- A valid single-leg found route used to drive full search cycles. -/
def legC6 : Leg := mkLeg "H1" "AA" "CCC" 0 100 80

/-- A result set whose cheapest criterion found `legC6`. -/
def foundResultsC6 : List (String × RouteResult) :=
  [("cheapest", { status := "found", path := some [legC6] })]

/-- Search 1 completes, its validation response arrives and inserts a
banner, then search 2 runs to completion. -/
def traceC6 : List Event :=
  [ Event.submit
  , Event.searchResponse foundResultsC6
  , Event.validationResponse 1 staleV
  , Event.submit
  , Event.searchResponse foundResultsC6 ]

/-- The state after `traceC6`. -/
def finalC6 : UIState := runTrace envNone initState traceC6

/-- Coordinate table knowing only BBB; the start airport AAA is missing. -/
def coordsC7 : String → Option Point :=
  fun c => if c = "BBB" then some (1, 2) else none

/-- A leg to BBB, whose coordinates are known. -/
def legToBBB : Leg := mkLeg "XX2" "XX" "BBB" 0 60 100

/-- Coordinate table for the witness route: AAA, BBB and DDD are mapped,
the mid-route destination CCC is not. -/
def coordsW7 : String → Option Point :=
  fun c =>
    if c = "AAA" then some (1, 1)
    else if c = "BBB" then some (2, 2)
    else if c = "DDD" then some (4, 4)
    else none

/-- Three-leg path AAA → BBB → CCC → DDD with CCC unmapped. -/
def pathW7 : List Leg :=
  [ mkLeg "W1" "XX" "BBB" 0 10 50
  , mkLeg "W2" "XX" "CCC" 20 30 60
  , mkLeg "W3" "XX" "DDD" 40 50 70 ]

/-- A result set with a found fastest route but no cheapest key at all. -/
def resultsNoCheapest : List (String × RouteResult) :=
  [("fastest", { status := "found", path := some [mkLeg "K1" "AA" "CCC" 0 100 90] })]

/-- The state after a full search cycle on `resultsNoCheapest`. -/
def finalC8 : UIState := stepSearchCycle envNone initState resultsNoCheapest

/-- Leg to EEE used by the C8 witness. -/
def legW8 : Leg := mkLeg "K2" "AA" "EEE" 0 100 40

/-- A result set whose cheapest criterion found `legW8`. -/
def resultsW8 : List (String × RouteResult) :=
  [("cheapest", { status := "found", path := some [legW8] })]

/-- Environment mapping AAA and EEE to coordinates. -/
def envW8 : Env :=
  { coords := fun c =>
      if c = "AAA" then some (1, 1) else if c = "EEE" then some (5, 5) else none
  , startInput := "AAA"
  , endInput := "EEE" }

/-- A conflict report with 22 failed flights and 12 conflict descriptions. -/
def dW10 : ConflictReportData :=
  { total_flights := 30
  , successful := 8
  , failed := 22
  , failed_flights := (List.range 22).map toString
  , conflicts := (List.range 12).map toString }

/-! ### Helper lemmas -/

theorem foldl_cost_eq_sum (p : List Leg) (acc : Rat) :
    p.foldl (fun a leg => a + leg.cost) acc = acc + (p.map Leg.cost).sum := by
  induction p generalizing acc with
  | nil => simp
  | cons x xs ih => simp [ih, add_assoc]

theorem renderLegEntries_get? (startNode : String) (path : List Leg) (i : Nat) :
    (renderLegEntries startNode path).get? i =
      (path.get? i).map (renderLeg startNode path i) := by
  unfold renderLegEntries
  rw [List.get?_map, List.get?_enum]
  cases path.get? i <;> rfl

theorem hasAnyRoute_eq_false_of (results : List (String × RouteResult))
    (h : ∀ e ∈ results, e.2.status ≠ "found") :
    hasAnyRoute results = false := by
  induction results with
  | nil => rfl
  | cons x xs ih =>
    have hx := h x (List.mem_cons_self x xs)
    simp only [hasAnyRoute, List.any_cons, Bool.or_eq_false_iff]
    exact ⟨by simp [hx], ih (fun e he => h e (List.mem_cons_of_mem x he))⟩

theorem filterMap_id_map {α β : Type} (f : α → Option β) (l : List α) :
    (l.map f).filterMap id = l.filterMap f := by
  induction l with
  | nil => rfl
  | cons x xs ih => cases hx : f x <;> simp [List.filterMap_cons, hx, ih]

theorem markers_map_pos (s : String) (path : List Leg) (n0 : Nat)
    (pts : List (Option Point)) :
    ∀ n : Nat,
      ((List.enumFrom n pts).filterMap
        (fun q => q.2.map (markerAt s path n0 q.1))).map Marker.pos =
        pts.filterMap id := by
  induction pts with
  | nil => intro n; rfl
  | cons o t ih =>
    intro n
    cases o with
    | none => simpa [List.enumFrom, List.filterMap_cons] using ih (n + 1)
    | some p =>
      simp [List.enumFrom, List.filterMap_cons, markerAt, ih (n + 1)]

theorem take_get?_of_lt {α : Type} (l : List α) (n i : Nat) (h : i < n) :
    (l.take n).get? i = l.get? i := by
  induction l generalizing n i with
  | nil => simp
  | cons x xs ih =>
    cases n with
    | zero => exact absurd h (Nat.not_lt_zero i)
    | succ m =>
      cases i with
      | zero => rfl
      | succ j => simpa using ih m j (Nat.lt_of_succ_lt_succ h)

/-! ### Claim theorems -/

/-- C2: for every found route whose total duration (last leg's arrival
minus first leg's departure) is negative, the pane is rendered solely with
the data-error notice — the `dataError` content carries no aggregate line
and no per-leg entries. -/
theorem c2_negative_route_duration_renders_only_data_error
    (startNode : String) (r : RouteResult) (firstLeg : Leg) (rest : List Leg)
    (hs : r.status = "found") (hp : r.path = some (firstLeg :: rest))
    (hneg : (rest.getLastD firstLeg).arrival_utc < firstLeg.departure_utc) :
    displayPane startNode r = some PaneContent.dataError := by
  simp [displayPane, hs, hp]
  have h1 : ((rest.getLast?.getD firstLeg).arrival_utc : Rat) <
      (firstLeg.departure_utc : Rat) := by
    have h2 : rest.getLastD firstLeg = rest.getLast?.getD firstLeg :=
      List.getLastD_eq_getLast? ..
    exact_mod_cast h2 ▸ hneg
  exact div_neg_of_neg_of_pos (by linarith) (by norm_num [msPerHour])

/-- Witness for C2 at the spec's own example route. -/
theorem c2_witness :
    routeC2.status = "found" ∧
    (([] : List Leg).getLastD legC2).arrival_utc < legC2.departure_utc ∧
    displayPane "JFK" routeC2 = some PaneContent.dataError :=
  ⟨rfl, by decide,
    c2_negative_route_duration_renders_only_data_error "JFK" routeC2 legC2 []
      rfl rfl (by decide)⟩

/-- C3: when no criterion of the response has status found, a full search
cycle leaves the results panel hidden, renders no panes, keeps the active
tab, and surfaces the no-routes guidance alert. -/
theorem c3_zero_found_routes_stays_empty
    (env : Env) (s : UIState) (results : List (String × RouteResult))
    (h : ∀ e ∈ results, e.2.status ≠ "found") :
    (stepSearchCycle env s results).resultsTabsHidden = true ∧
    (stepSearchCycle env s results).panes = s.panes ∧
    (stepSearchCycle env s results).activeTab = s.activeTab ∧
    (stepSearchCycle env s results).alerts =
      AlertMsg.noRoutesGuidance env.startInput env.endInput :: s.alerts := by
  have hAny : hasAnyRoute results = false := hasAnyRoute_eq_false_of results h
  simp [stepSearchCycle, step, hAny]

/-- Witness for C3: all three criteria not found. -/
theorem c3_witness :
    (stepSearchCycle envNone initState resultsC3).resultsTabsHidden = true ∧
    (stepSearchCycle envNone initState resultsC3).panes = initState.panes ∧
    (stepSearchCycle envNone initState resultsC3).activeTab =
      initState.activeTab ∧
    (stepSearchCycle envNone initState resultsC3).alerts =
      AlertMsg.noRoutesGuidance envNone.startInput envNone.endInput ::
        initState.alerts :=
  c3_zero_found_routes_stays_empty envNone initState resultsC3 (by decide)

/-- C5: whenever a found route is rendered with an aggregate line, the
displayed total cost is the 2-decimal formatting of the sum of every leg's
cost over the whole path, the costs of invalid legs included. -/
theorem c5_total_cost_sums_all_leg_costs
    (startNode : String) (r : RouteResult) (c d : Rat) (st : Nat)
    (legs : List LegRender) (p : List Leg)
    (hp : r.path = some p)
    (h : displayPane startNode r = some (PaneContent.foundRoute c d st legs)) :
    c = toFixed2 ((p.map Leg.cost).sum) := by
  cases p with
  | nil =>
    simp only [displayPane, hp] at h
    split_ifs at h <;> simp_all
  | cons f rest =>
    simp only [displayPane, hp] at h
    split_ifs at h with hs hneg
    · simp at h
    · simp only [Option.some.injEq, PaneContent.foundRoute.injEq] at h
      rw [← h.1, foldl_cost_eq_sum, zero_add]
    · simp at h

/-- Witness for C5 at a route mixing a valid and an invalid leg. -/
theorem c5_witness :
    routeC5.path = some [legV5, legI5] ∧
    displayPane "AAA" routeC5 =
      some (PaneContent.foundRoute cW5 dW5 1 legsW5) ∧
    cW5 = toFixed2 (([legV5, legI5].map Leg.cost).sum) := by
  have h : displayPane "AAA" routeC5 =
      some (PaneContent.foundRoute cW5 dW5 1 legsW5) := by
    simp only [displayPane, routeC5, legV5, legI5, mkLeg, cW5, dW5, legsW5]
    norm_num [renderLegEntries, renderLeg, legOrigin, toFixed2, msPerHour,
      List.enum, List.enumFrom, round_eq]
  exact ⟨rfl, h,
    c5_total_cost_sums_all_leg_costs "AAA" routeC5 cW5 dW5 1 legsW5
      [legV5, legI5] rfl h⟩

/-- C1 (code bug): the script tracks no generation token, so a
conflict-validation response issued by search generation 1, arriving while
the ViewState generation is already 2, still inserts a warning banner and
changes the view state instead of being discarded. -/
theorem c1_stale_validation_still_inserts_banner :
    1 < stateGen2.generation ∧
    (step envNone stateGen2 (Event.validationResponse 1 staleV)).warnings =
      [⟨["AA100"]⟩] ∧
    step envNone stateGen2 (Event.validationResponse 1 staleV) ≠ stateGen2 := by
  decide

/-- C4: the displayed origin of leg i is the search start airport for i = 0
and the previous leg's destination for i > 0, taken from the original
unfiltered leg sequence even when some legs are flagged invalid. -/
theorem c4_displayed_leg_origin_chains_unfiltered
    (startNode : String) (path : List Leg) (i : Nat) (r : LegRender)
    (o : String)
    (hr : (renderLegEntries startNode path).get? i = some r)
    (ho : LegRender.origin? r = some o) :
    (i = 0 → o = startNode) ∧
    (0 < i → some o = (path.get? (i - 1)).map Leg.destination) := by
  rw [renderLegEntries_get?] at hr
  obtain ⟨leg, hleg, hrender⟩ := Option.map_eq_some'.mp hr
  subst hrender
  have hi : i < path.length := by
    by_contra hle
    rw [List.get?_eq_none.mpr (Nat.le_of_not_lt hle)] at hleg
    exact Option.noConfusion hleg
  by_cases hd : leg.arrival_utc - leg.departure_utc < 0
  · simp [renderLeg, hd, LegRender.origin?] at ho
  · simp only [renderLeg, hd, if_false, ite_false, LegRender.origin?,
      Option.some.injEq] at ho
    refine ⟨fun h0 => ?_, fun hpos => ?_⟩
    · rw [← ho]; simp [legOrigin, h0]
    · have h1 : i - 1 < path.length := Nat.lt_of_le_of_lt (Nat.sub_le i 1) hi
      rw [← ho]
      simp only [legOrigin, if_neg (Nat.pos_iff_ne_zero.mp hpos)]
      rw [List.get?_eq_getElem?, List.getElem?_eq_getElem h1]
      simp

/-- Witness for C4: index 2 of a path whose middle leg is invalid displays
origin CCC, the invalid middle leg's destination, chained over the
unfiltered sequence. -/
theorem c4_witness :
    (renderLegEntries "AAA" pathC4).get? 2 = some rC4 ∧
    LegRender.origin? rC4 = some "CCC" ∧
    some "CCC" = (pathC4.get? (2 - 1)).map Leg.destination := by
  have hr : (renderLegEntries "AAA" pathC4).get? 2 = some rC4 := by decide
  have ho : LegRender.origin? rC4 = some "CCC" := by decide
  exact ⟨hr, ho,
    (c4_displayed_leg_origin_chains_unfiltered "AAA" pathC4 2 rC4 "CCC" hr
      ho).2 (by decide)⟩

/-- C6 counterexample: after a first search's validation response inserted
a banner, a second search runs to completion; the final state shows the
results panel with the first search's warning banner still present — a new
submission does not remove prior banners. -/
theorem c6_stale_banner_survives_new_search :
    finalC6.resultsTabsHidden = false ∧ finalC6.warnings = [⟨["AA100"]⟩] := by
  decide

/-- C6 amended: a new search submission clears all prior map overlays and
hides the results panel, but leaves every prior warning banner in place. -/
theorem c6_submit_clears_overlays_keeps_warnings (env : Env) (s : UIState) :
    (step env s Event.submit).routeLayer = RouteLayer.empty ∧
    (step env s Event.submit).resultsTabsHidden = true ∧
    (step env s Event.submit).warnings = s.warnings :=
  ⟨rfl, rfl, rfl⟩

/-- C7 counterexample: when the start airport has no coordinate mapping,
`drawMapRoute` aborts entirely and draws nothing, even though a remaining
point (the leg destination BBB) has known coordinates. -/
theorem c7_missing_start_coords_aborts_rendering :
    (coordsC7 "BBB").isSome = true ∧
    drawMapRoute coordsC7 (some [legToBBB]) "AAA" = RouteLayer.empty := by
  decide

/-- C7 amended: when the start airport has coordinates, every leg
destination lacking a coordinate mapping is silently dropped from the
connecting path and gets no marker, while the remaining valid points are
drawn in order (the marker positions are exactly the path's point list);
when the start airport itself lacks coordinates the script instead aborts
and draws nothing. -/
theorem c7_unmapped_destinations_dropped_rest_in_order
    (coords : String → Option Point) (path : List Leg) (startNode : String)
    (p0 : Point) (h : coords startNode = some p0) :
    (drawMapRoute coords (some path) startNode).polylinePoints =
      p0 :: path.filterMap (fun leg => coords leg.destination) ∧
    (drawMapRoute coords (some path) startNode).markers.map Marker.pos =
      (drawMapRoute coords (some path) startNode).polylinePoints := by
  constructor
  · simp only [drawMapRoute, h]
    simp only [routePoints, h, List.filterMap_cons, id]
    rw [filterMap_id_map]
  · simp only [drawMapRoute, h]
    exact markers_map_pos startNode path _ _ 0

/-- Witness for C7: route AAA → BBB → CCC → DDD with CCC unmapped: the
drawn path drops exactly the CCC point and the markers follow it. -/
theorem c7_witness :
    pathW7.filterMap (fun leg => coordsW7 leg.destination) =
      [(2, 2), (4, 4)] ∧
    ((drawMapRoute coordsW7 (some pathW7) "AAA").polylinePoints =
      (1, 1) :: pathW7.filterMap (fun leg => coordsW7 leg.destination) ∧
     (drawMapRoute coordsW7 (some pathW7) "AAA").markers.map Marker.pos =
      (drawMapRoute coordsW7 (some pathW7) "AAA").polylinePoints) :=
  ⟨rfl,
    c7_unmapped_destinations_dropped_rest_in_order coordsW7 pathW7 "AAA"
      (1, 1) rfl⟩

/-- C8 counterexample: for a result set with a found fastest route and no
cheapest key, the script still activates the cheapest tab, while the
claim's priority rule selects fastest. -/
theorem c8_default_tab_ignores_priority_order :
    finalC8.activeTab = some "cheapest" ∧
    specClaimDefaultTab resultsNoCheapest = some "fastest" ∧
    finalC8.activeTab ≠ specClaimDefaultTab resultsNoCheapest := by
  decide

/-- C8 amended: after a successful search response the default active
criterion is always cheapest, whatever keys the result set has, and
activating it redraws the map for `currentResults.cheapest?.path` (drawing
nothing when that key is absent). -/
theorem c8_default_always_cheapest (env : Env) (s : UIState)
    (results : List (String × RouteResult))
    (h : hasAnyRoute results = true) :
    (stepSearchCycle env s results).activeTab = some "cheapest" ∧
    (stepSearchCycle env s results).routeLayer =
      drawMapRoute env.coords
        ((lookupResult results "cheapest").bind RouteResult.path)
        env.startInput := by
  simp [stepSearchCycle, step, h, clickTab]

/-- Witness for C8: a result set whose cheapest criterion is present. -/
theorem c8_witness :
    hasAnyRoute resultsW8 = true ∧
    ((stepSearchCycle envW8 initState resultsW8).activeTab =
        some "cheapest" ∧
      (stepSearchCycle envW8 initState resultsW8).routeLayer =
        drawMapRoute envW8.coords
          ((lookupResult resultsW8 "cheapest").bind RouteResult.path)
          envW8.startInput) :=
  ⟨by decide, c8_default_always_cheapest envW8 initState resultsW8 (by decide)⟩

/-- C9: each redraw begins by clearing the route layer, so drawing the same
route twice in a row leaves exactly the layer contents of a single draw:
nothing accumulates across redraws. -/
theorem c9_redraw_idempotent (coords : String → Option Point)
    (path? : Option (List Leg)) (startNode : String) (prev : RouteLayer) :
    drawMapRouteOn coords path? startNode
        (drawMapRouteOn coords path? startNode prev) =
      drawMapRouteOn coords path? startNode prev := rfl

/-- C10: the conflict-report panel truncates its lists: at most the first
20 failed flights become badges, the +N more indicator appears exactly when
more than 20 exist, and at most the first 10 conflict descriptions are
shown, all in original order. -/
theorem c10_collision_report_truncates (d : ConflictReportData) :
    (displayCollisionData d).badges.length = min 20 d.failed_flights.length ∧
    (∀ i : Nat, i < 20 →
      (displayCollisionData d).badges.get? i = d.failed_flights.get? i) ∧
    (d.failed_flights.length ≤ 20 →
      (displayCollisionData d).moreIndicator = none) ∧
    (20 < d.failed_flights.length →
      (displayCollisionData d).moreIndicator =
        some (d.failed_flights.length - 20)) ∧
    (displayCollisionData d).conflictItems.length = min 10 d.conflicts.length ∧
    (∀ i : Nat, i < 10 →
      (displayCollisionData d).conflictItems.get? i = d.conflicts.get? i) := by
  refine ⟨List.length_take 20 d.failed_flights, ?_, ?_, ?_,
    List.length_take 10 d.conflicts, ?_⟩
  · intro i hi; exact take_get?_of_lt _ _ _ hi
  · intro hle; simp [displayCollisionData, Nat.not_lt.mpr hle]
  · intro hgt; simp [displayCollisionData, hgt]
  · intro i hi; exact take_get?_of_lt _ _ _ hi

/-- Witness for C10 at a report with 22 failed flights and 12 conflicts. -/
theorem c10_witness :
    20 < dW10.failed_flights.length ∧
    (displayCollisionData dW10).moreIndicator = some 2 ∧
    (displayCollisionData dW10).badges.length = 20 ∧
    (displayCollisionData dW10).conflictItems.length = 10 := by
  obtain ⟨h1, -, -, h4, h5, -⟩ := c10_collision_report_truncates dW10
  refine ⟨by decide, ?_, ?_, ?_⟩
  · exact (h4 (by decide)).trans (by decide)
  · exact h1.trans (by decide)
  · exact h5.trans (by decide)

end FlightUI
